import Mathlib

/-!
Shallow embedding of the FinGestão backend (src/backend/server.py): the
aggregation engine (monthly report, dashboard) and the auth lifecycle
(refresh-token rotation, login rate limiting, category deletion).

Conventions of the embedding:
* Monetary amounts are ℚ (the Python code uses floats; sums and the
  `round(x, 2)` boundary rounding are modelled exactly over ℚ, with
  `round` modelled as round-half-to-even as Python does).
* Instants are ℤ, counted in seconds on the fixed America/Bahia local
  timeline; the code stores ISO-8601 strings with one fixed offset and
  compares them lexicographically, which is exactly the order of these
  integers.  `timedelta(minutes=15)` is 900, one day is 86400.
* Mongo documents become Lean structures; `find_one` is `List.find?`,
  `delete_one` is `List.eraseP`, `update_many` is `List.map` with a
  guard, `count_documents` is `List.countP`, and the in-memory
  `login_attempts` dict is a function `String → Option (ℕ × ℤ)`.
* Fallible endpoints return a result value together with the new store
  state, so that non-atomic error paths are visible.
-/

namespace Financa

/-- Transaction type tag (code: `Literal["INCOME", "EXPENSE"]`). -/
inductive TxType where
  | income
  | expense
deriving DecidableEq

/-- A stored (possibly soft-deleted) transaction document, with the fields
the claims touch (server.py `create_transaction` document shape). -/
structure Tx where
  id : String
  user_id : String
  type : TxType
  description : String
  amount : ℚ
  date : ℤ
  category_id : String
  deleted_at : Option ℤ
deriving DecidableEq

/-- A stored category document (only the fields used by the reports). -/
structure Cat where
  id : String
  user_id : String
  name : String
  color : String
deriving DecidableEq

/-- `sum(t["amount"] for t in txs if t["type"] == ty)`. -/
def sumByType (txs : List Tx) (ty : TxType) : ℚ :=
  ((txs.filter fun t => t.type = ty).map fun t => t.amount).sum

/-- Period balance: income minus expense (server.py lines 992, 1123). -/
def balance (txs : List Tx) : ℚ :=
  sumByType txs TxType.income - sumByType txs TxType.expense

/-- Round-half-to-even to the nearest integer, as Python `round` does. -/
def roundHalfEven (x : ℚ) : ℤ :=
  let f := ⌊x⌋
  let r := x - f
  if r < 1 / 2 then f
  else if 1 / 2 < r then f + 1
  else if f % 2 = 0 then f else f + 1

/-- Python `round(x, 2)`: half-to-even rounding to 2 decimal places. -/
def round2 (x : ℚ) : ℚ :=
  (roundHalfEven (x * 100) : ℚ) / 100

/-- `x` already carries at most 2 decimal places. -/
def IsRounded2 (x : ℚ) : Prop := round2 x = x

instance (x : ℚ) : Decidable (IsRounded2 x) := by
  unfold IsRounded2; infer_instance

/-- Monthly-report percent change (server.py lines 1016 to 1017):
`((current - previous) / previous * 100) if previous > 0 else None`. -/
def percentChange (current previous : ℚ) : Option ℚ :=
  if 0 < previous then some ((current - previous) / previous * 100) else none

/-- Dashboard `income_vs_expense_change` (server.py lines 1120 to 1128),
computed from the fetched current-period and previous-period transaction
lists.  Note the denominator is `abs(prev_balance)` in the code. -/
def dashboardChange (periodTxs prevTxs : List Tx) : ℚ :=
  if balance prevTxs ≠ 0 then
    (balance periodTxs - balance prevTxs) / |balance prevTxs| * 100
  else if 0 < balance periodTxs then 100 else 0

/-- The change formula exactly as the specification words it: signed
percent change `(current - previous) / previous * 100` on a nonzero
previous balance, with the same zero-base special case.  Kept separate
from `dashboardChange` (which follows the code) for comparison. -/
def specSignedChange (current previous : ℚ) : ℚ :=
  if previous ≠ 0 then (current - previous) / previous * 100
  else if 0 < current then 100 else 0

/-! ## Dashboard previous-period computation (server.py lines 1105 to 1117) -/

/-- `period_days = (end_dt - start_dt).days + 1`; Python `timedelta.days`
floors, as does `ℤ` division by the positive constant 86400. -/
def periodDays (s e : ℤ) : ℤ := (e - s) / 86400 + 1

/-- `prev_end = start_dt - timedelta(seconds=1)`. -/
def prevEnd (s : ℤ) : ℤ := s - 1

/-- `prev_start = prev_end - timedelta(days=period_days)`. -/
def prevStart (s e : ℤ) : ℤ := prevEnd s - periodDays s e * 86400

/-- The day-count of an inclusive instant range, measured with the same
metric the code itself uses for the selected period. -/
def durationDays (s e : ℤ) : ℤ := (e - s) / 86400 + 1

/-! ## Login rate limiting (server.py lines 270 to 288) -/

/-- The process-local `login_attempts` dict: email to
(failure count, last failure instant). -/
def LoginAttempts : Type := String → Option (ℕ × ℤ)

/-- `check_rate_limit` (server.py lines 270 to 277): allowed unless the
email has at least 5 recorded failures and the most recent one is less
than 15 minutes (900 s) old. -/
def check_rate_limit (st : LoginAttempts) (email : String) (now : ℤ) : Bool :=
  match st email with
  | some (attempts, lastAttempt) =>
      if now - lastAttempt < 900 then
        if 5 ≤ attempts then false else true
      else true
  | none => true

/-- `record_login_attempt` (server.py lines 279 to 288): success pops the
entry; failure increments the stored count (from 0 if absent) and stamps
`now`. -/
def record_login_attempt (st : LoginAttempts) (email : String) (success : Bool)
    (now : ℤ) : LoginAttempts :=
  if success then
    fun e => if e = email then none else st e
  else
    match st email with
    | some (attempts, _) => fun e => if e = email then some (attempts + 1, now) else st e
    | none => fun e => if e = email then some (1, now) else st e

/-! ## Refresh-token rotation (server.py lines 417 to 468) -/

/-- A persisted `refresh_tokens` document (token string and owner). -/
structure RefreshRec where
  token : String
  user_id : String
deriving DecidableEq

/-- A `users` document (only the id matters here). -/
structure UserRec where
  id : String
deriving DecidableEq

/-- The slice of the store the refresh endpoint touches. -/
structure AuthDB where
  refresh_tokens : List RefreshRec
  users : List UserRec
deriving DecidableEq

/-- Outcome of `jwt.decode` on the presented token: a decoded payload
(`type` claim and `sub` claim), or one of the two failure classes. -/
inductive JwtDecode where
  | ok (type sub : String)
  | expired
  | invalid
deriving DecidableEq

/-- Endpoint outcome: a new token pair, or an HTTP error. -/
inductive RefreshOutcome where
  | success (access newRefresh sub : String)
  | failure (status : ℕ) (detail : String)
deriving DecidableEq

/-- `db.refresh_tokens.find_one(token = tok, user_id = sub)`. -/
def findOneToken (l : List RefreshRec) (tok sub : String) : Option RefreshRec :=
  l.find? fun r => r.token == tok && r.user_id == sub

/-- `db.refresh_tokens.delete_one(token = tok)`: removes the first match. -/
def deleteOneToken (l : List RefreshRec) (tok : String) : List RefreshRec :=
  l.eraseP fun r => r.token == tok

/-- `db.users.find_one(id = sub)`. -/
def findUser (l : List UserRec) (sub : String) : Option UserRec :=
  l.find? fun u => u.id == sub

/-- The `/auth/refresh` handler (server.py lines 417 to 468) as a state
transformer.  `dec` is the result of `jwt.decode` on `tok`; `newAccess`
and `newRefresh` stand for the freshly minted tokens (each carries a
fresh `jti` uuid in the code). -/
def refreshEndpoint (db : AuthDB) (tok : String) (dec : JwtDecode)
    (newAccess newRefresh : String) : RefreshOutcome × AuthDB :=
  match dec with
  | JwtDecode.invalid => (RefreshOutcome.failure 401 "Token inválido", db)
  | JwtDecode.expired => (RefreshOutcome.failure 401 "Token expirado", db)
  | JwtDecode.ok ty sub =>
      if ty ≠ "refresh" then (RefreshOutcome.failure 401 "Token inválido", db)
      else
        match findOneToken db.refresh_tokens tok sub with
        | none => (RefreshOutcome.failure 401 "Token inválido ou revogado", db)
        | some _ =>
            let db1 : AuthDB :=
              { db with refresh_tokens := deleteOneToken db.refresh_tokens tok }
            match findUser db1.users sub with
            | none => (RefreshOutcome.failure 401 "Usuário não encontrado", db1)
            | some _ =>
                let db2 : AuthDB :=
                  { db1 with refresh_tokens := db1.refresh_tokens ++ [⟨newRefresh, sub⟩] }
                (RefreshOutcome.success newAccess newRefresh sub, db2)

/-! ## Category deletion (server.py lines 648 to 690) -/

/-- The slice of the store `delete_category` touches. -/
structure FinDB where
  categories : List Cat
  transactions : List Tx
deriving DecidableEq

/-- Endpoint outcome for category deletion. -/
inductive DeleteCatResult where
  | ok (msg : String)
  | err (status : ℕ) (detail : String)
deriving DecidableEq

/-- The guard of the reassignment update
(`category_id == cid and user_id == user`, with no `deleted_at` filter). -/
def reassignGuard (cid user : String) (t : Tx) : Bool :=
  t.category_id == cid && t.user_id == user

/-- The `DELETE /categories/id` handler (server.py lines 648 to 690) as a
state transformer.  The precondition count filters `deleted_at = None`;
the `update_many` reassignment does not. -/
def delete_category (db : FinDB) (user cid : String) (reassign_to : Option String) :
    DeleteCatResult × FinDB :=
  match db.categories.find? (fun c => c.id == cid && c.user_id == user) with
  | none => (DeleteCatResult.err 404 "Categoria não encontrada", db)
  | some _ =>
      let tx_count := db.transactions.countP fun t =>
        t.category_id == cid && t.user_id == user && decide (t.deleted_at = none)
      if 0 < tx_count then
        match reassign_to with
        | none =>
            (DeleteCatResult.err 400
              ("Categoria possui " ++ toString tx_count ++
                " transações. Forneça uma categoria para reatribuir."), db)
        | some r =>
            match db.categories.find? (fun c => c.id == r && c.user_id == user) with
            | none => (DeleteCatResult.err 400 "Categoria de reatribuição não encontrada", db)
            | some _ =>
                let txs2 := db.transactions.map fun t =>
                  if reassignGuard cid user t then { t with category_id := r } else t
                let cats2 := db.categories.eraseP fun c => c.id == cid
                (DeleteCatResult.ok "Categoria deletada com sucesso",
                  { categories := cats2, transactions := txs2 })
      else
        (DeleteCatResult.ok "Categoria deletada com sucesso",
          { db with categories := db.categories.eraseP fun c => c.id == cid })

/-! ## Monthly report (server.py lines 968 to 1066) -/

/-- Dict upsert keyed by category id (Python dict keeps first-appearance
order; an existing key accumulates in place, a new key appends). -/
def upsertCat : List (String × ℚ) → String → ℚ → List (String × ℚ)
  | [], k, v => [(k, v)]
  | (k0, v0) :: rest, k, v =>
      if k0 = k then (k0, v0 + v) :: rest else (k0, v0) :: upsertCat rest k v

/-- `expense_by_category` accumulation (server.py lines 1020 to 1024):
per-category full-precision sums over the EXPENSE transactions, in
first-appearance order. -/
def groupExpenseByCategory (txs : List Tx) : List (String × ℚ) :=
  txs.foldl
    (fun acc t => if t.type = TxType.expense then upsertCat acc t.category_id t.amount else acc)
    []

/-- Dict upsert keyed by calendar day for the daily series
(server.py lines 1041 to 1049): adds the amount to the income or the
expense bucket of the day. -/
def upsertDay : List (ℤ × ℚ × ℚ) → ℤ → TxType → ℚ → List (ℤ × ℚ × ℚ)
  | [], k, ty, v =>
      [(k, if ty = TxType.income then (v, 0) else ((0 : ℚ), v))]
  | (k0, inc, exp) :: rest, k, ty, v =>
      if k0 = k then
        (k0, if ty = TxType.income then (inc + v, exp) else (inc, exp + v)) :: rest
      else (k0, inc, exp) :: upsertDay rest k ty v

/-- The calendar day of a stored instant: Python takes `t["date"][:10]`,
which on the fixed-offset local timeline is the floor-division day. -/
def dayOf (d : ℤ) : ℤ := d / 86400

/-- `daily_data` accumulation (server.py lines 1041 to 1049). -/
def dailyGroup (txs : List Tx) : List (ℤ × ℚ × ℚ) :=
  txs.foldl (fun acc t => upsertDay acc (dayOf t.date) t.type t.amount) []

/-- One `top_expense_categories` record (server.py line 1034). -/
structure CatAgg where
  category_id : String
  name : String
  color : String
  amount : ℚ
deriving DecidableEq

/-- One `daily_balance` record (server.py line 1052). -/
structure DailyEntry where
  day : ℤ
  income : ℚ
  expense : ℚ
  balance : ℚ
deriving DecidableEq

/-- Category lookup with the fallback placeholders of server.py line 1034. -/
def mkCatAgg (cats : List Cat) (p : String × ℚ) : CatAgg :=
  match cats.find? fun c => c.id == p.1 with
  | some c => { category_id := p.1, name := c.name, color := c.color, amount := p.2 }
  | none => { category_id := p.1, name := "Desconhecida", color := "#71717a", amount := p.2 }

/-- The `MonthlyReportResponse` payload fields the claims are about. -/
structure MonthlyReport where
  month : ℤ
  year : ℤ
  total_income : ℚ
  total_expense : ℚ
  balance : ℚ
  income_change : Option ℚ
  expense_change : Option ℚ
  top_expense_categories : List CatAgg
  daily_balance : List DailyEntry
deriving DecidableEq

/-- `get_monthly_report` (server.py lines 968 to 1066) on the two fetched
transaction lists (current month and previous month) and the category
table.  `sorted(..., key=amount, reverse=True)` is a stable descending
sort; `sorted(daily_data.items())` sorts by day. -/
def monthlyReport (month year : ℤ) (txs prevTxs : List Tx) (cats : List Cat) :
    MonthlyReport :=
  let total_income := sumByType txs TxType.income
  let total_expense := sumByType txs TxType.expense
  let prev_income := sumByType prevTxs TxType.income
  let prev_expense := sumByType prevTxs TxType.expense
  { month := month
    year := year
    total_income := round2 total_income
    total_expense := round2 total_expense
    balance := round2 (total_income - total_expense)
    income_change := (percentChange total_income prev_income).map round2
    expense_change := (percentChange total_expense prev_expense).map round2
    top_expense_categories :=
      (((groupExpenseByCategory txs).map (mkCatAgg cats)).mergeSort
        (fun a b => decide (b.amount ≤ a.amount))).take 5
    daily_balance :=
      ((dailyGroup txs).mergeSort (fun a b => decide (a.1 ≤ b.1))).map
        fun p => { day := p.1, income := p.2.1, expense := p.2.2, balance := p.2.1 - p.2.2 } }

/-! ## Dashboard monthly comparison (server.py lines 1164 to 1188) -/

/-- Leap-year predicate of the proleptic Gregorian calendar. -/
def isLeap (y : ℤ) : Bool :=
  (y % 4 == 0 && y % 100 != 0) || y % 400 == 0

/-- Civil day number of (year, month, day), days since 1970-01-01
(Hinnant's algorithm; `ℤ` division already floors). -/
def daysFromCivil (y m d : ℤ) : ℤ :=
  let yAdj := if m ≤ 2 then y - 1 else y
  let era := yAdj / 400
  let yoe := yAdj - era * 400
  let doy := (153 * (m + (if 2 < m then -3 else 9)) + 2) / 5 + d - 1
  let doe := yoe * 365 + yoe / 4 - yoe / 100 + doy
  era * 146097 + doe - 719468

/-- First instant of a calendar month on the local timeline
(`datetime(y, m, 1, tzinfo=BRAZIL_TZ)`; the fixed offset cancels out of
every comparison and is dropped). -/
def monthStart (y m : ℤ) : ℤ := daysFromCivil y m 1 * 86400

/-- Last instant of a calendar month: the first instant of the next month
minus one second (server.py lines 1174 to 1177). -/
def monthEnd (y m : ℤ) : ℤ :=
  (if m = 12 then monthStart (y + 1) 1 else monthStart y (m + 1)) - 1

/-- The `while m <= 0: m += 12; y -= 1` normalisation of
server.py lines 1169 to 1171. -/
def normMY (m y : ℤ) : ℤ × ℤ :=
  if m ≤ 0 then normMY (m + 12) (y - 1) else (m, y)
termination_by (1 - m).toNat
decreasing_by omega

/-- `month_names` (server.py line 1182). -/
def monthNames : List String :=
  ["Jan", "Fev", "Mar", "Abr", "Mai", "Jun", "Jul", "Ago", "Set", "Out", "Nov", "Dez"]

/-- One `monthly_comparison` record. -/
structure MonthEntry where
  month : String
  year : ℤ
  income : ℚ
  expense : ℚ
deriving DecidableEq, Inhabited

/-- The entry for one (month, year) pair, computed over the all-time
transaction list with that month's boundaries
(server.py lines 1173 to 1188). -/
def monthEntry (allTxs : List Tx) (p : ℤ × ℤ) : MonthEntry :=
  let ms := monthStart p.2 p.1
  let me := monthEnd p.2 p.1
  { month := monthNames.getD (p.1 - 1).toNat ""
    year := p.2
    income := round2 (((allTxs.filter fun t =>
        decide (t.type = TxType.income) && decide (ms ≤ t.date) && decide (t.date ≤ me)).map
        fun t => t.amount).sum)
    expense := round2 (((allTxs.filter fun t =>
        decide (t.type = TxType.expense) && decide (ms ≤ t.date) && decide (t.date ≤ me)).map
        fun t => t.amount).sum) }

/-- `monthly_comparison` (server.py lines 1164 to 1188): the loop
`for i in range(5, -1, -1)` over the all-time transaction list. -/
def monthlyComparison (nowY nowM : ℤ) (allTxs : List Tx) : List MonthEntry :=
  ([5, 4, 3, 2, 1, 0] : List ℤ).map fun i => monthEntry allTxs (normMY (nowM - i) nowY)

/-- The all-time fetch of the dashboard (server.py lines 1085 to 1088):
every non-deleted transaction of the user, regardless of period. -/
def allTransactions (store : List Tx) : List Tx :=
  store.filter fun t => decide (t.deleted_at = none)

/-- The label of the j-th comparison entry (0-based, oldest first):
the loop index is `i = 5 - j`. -/
def comparisonLabel (nowY nowM : ℤ) (j : ℕ) : ℤ × ℤ :=
  normMY (nowM - (5 - (j : ℤ))) nowY

/-- Successor month with the December wrap. -/
def nextMonthPair (p : ℤ × ℤ) : ℤ × ℤ :=
  if p.1 = 12 then (1, p.2 + 1) else (p.1 + 1, p.2)

/-! ## Concrete fixtures used by counterexamples and witnesses -/

/-- A single stored expense of 100 (concrete fixture). -/
def txE100 : Tx :=
  { id := "t1", user_id := "u1", type := TxType.expense, description := "mercado",
    amount := 100, date := 0, category_id := "c1", deleted_at := none }

/-! ## Claim theorems -/

/-- C5: the monthly-report change figure is
`(current - previous) / previous * 100` whenever the previous total is
strictly positive, is absent (`none`) on a zero previous total whatever
the current total is, and in particular `percentChange 150 100 = 50`;
no division by a zero base ever happens. -/
theorem percentChange_spec :
    (∀ current previous : ℚ, 0 < previous →
      percentChange current previous = some ((current - previous) / previous * 100)) ∧
    (∀ current : ℚ, percentChange current 0 = none) ∧
    percentChange 150 100 = some 50 := by
  refine ⟨fun current previous hp => ?_, fun current => ?_, ?_⟩
  · simp [percentChange, hp]
  · simp [percentChange]
  · norm_num [percentChange]

/-- C5 witness: the positive-base branch at (150, 100) and the zero-base
branch at current = 37. -/
theorem percentChange_spec_witness :
    percentChange 150 100 = some ((150 - 100) / 100 * 100) ∧
    percentChange 37 0 = none :=
  ⟨percentChange_spec.1 150 100 (by norm_num), percentChange_spec.2.1 37⟩

/-- C1 counterexample: with a previous period holding one expense of 100
(previous balance -100) and an empty current period, the code reports
+100, while the claimed formula `(current - previous) / previous * 100`
yields -100: the code divides by `abs(prev_balance)`, not `prev_balance`. -/
theorem dashboardChange_signed_counterexample :
    balance [txE100] ≠ 0 ∧
    dashboardChange [] [txE100] ≠
      (balance [] - balance [txE100]) / balance [txE100] * 100 := by
  have h1 : balance [txE100] = -100 := by
    simp [balance, sumByType, txE100]
  have h0 : balance [] = 0 := by
    simp [balance, sumByType]
  have h2 : dashboardChange [] [txE100] = 100 := by
    rw [dashboardChange, h0, h1]
    norm_num
  rw [h0, h1, h2]
  norm_num

/-- C1 (amended): `income_vs_expense_change` is
`(current - previous) / |previous| * 100` on a nonzero previous-period
balance — the denominator is the absolute value of the previous balance,
not the signed value — and on a zero previous balance it is 100 when the
current-period balance is positive and 0 otherwise. -/
theorem dashboardChange_abs_denominator (cur prev : List Tx) :
    (balance prev ≠ 0 →
      dashboardChange cur prev = (balance cur - balance prev) / |balance prev| * 100) ∧
    (balance prev = 0 →
      dashboardChange cur prev = if 0 < balance cur then 100 else 0) := by
  unfold dashboardChange
  constructor
  · intro h
    rw [if_pos h]
  · intro h
    rw [if_neg fun hn => hn h]

/-- C1 witness: the amended statement evaluated on concrete periods, once
with a nonzero (negative) previous balance and once with a zero one. -/
theorem dashboardChange_abs_denominator_witness :
    dashboardChange [] [txE100] =
      (balance [] - balance [txE100]) / |balance [txE100]| * 100 ∧
    dashboardChange [txE100] [] = if 0 < balance [txE100] then 100 else 0 :=
  ⟨(dashboardChange_abs_denominator [] [txE100]).1
      (by simp [balance, sumByType, txE100]),
   (dashboardChange_abs_denominator [txE100] []).2
      (by simp [balance, sumByType])⟩

/-- C7 counterexample: for the default-month-shaped period from instant 0
to instant 2678399 (31 days minus one second, so 31 calendar days), the
previous comparison period spans 32 days by the code's own day metric —
not the same duration. -/
theorem prevPeriod_duration_counterexample :
    durationDays (prevStart 0 2678399) (prevEnd 0) ≠ durationDays 0 2678399 := by
  decide

/-- C7 (amended): the previous comparison period ends exactly one second
before the selected period starts (so the two neither overlap nor leave a
gap), but it is one day longer than the selected period: its inclusive
day-count is always `period_days + 1` where `period_days` is the
selected period's day-count. -/
theorem prevPeriod_adjacent_but_longer (s e : ℤ) :
    prevEnd s + 1 = s ∧
    prevEnd s < s ∧
    durationDays (prevStart s e) (prevEnd s) = durationDays s e + 1 := by
  refine ⟨by simp [prevEnd], by simp [prevEnd], ?_⟩
  unfold durationDays prevStart prevEnd periodDays
  have h1 : s - 1 - (s - 1 - ((e - s) / 86400 + 1) * 86400) =
      ((e - s) / 86400 + 1) * 86400 := by ring
  rw [h1, Int.mul_ediv_cancel _ (by norm_num)]

/-- C3: a login attempt is rejected exactly when the stored failure count
for the email is at least 5 and the most recent recorded failure is less
than 15 minutes old; a successful login removes the counter entirely;
and five recorded failures block the next attempt made within the
window. -/
theorem rate_limit_blocks_iff :
    (∀ (st : LoginAttempts) (email : String) (now : ℤ),
      check_rate_limit st email now = false ↔
        ∃ a t, st email = some (a, t) ∧ 5 ≤ a ∧ now - t < 900) ∧
    (∀ (st : LoginAttempts) (email : String) (now : ℤ),
      record_login_attempt st email true now email = none) ∧
    (∀ (st0 : LoginAttempts) (email : String) (t1 t2 t3 t4 t5 now : ℤ),
      st0 email = none → now - t5 < 900 →
      check_rate_limit
        (record_login_attempt
          (record_login_attempt
            (record_login_attempt
              (record_login_attempt
                (record_login_attempt st0 email false t1) email false t2)
              email false t3)
            email false t4)
          email false t5)
        email now = false) := by
  have step : ∀ (st : LoginAttempts) (email : String) (a : ℕ) (told tnew : ℤ),
      st email = some (a, told) →
      record_login_attempt st email false tnew email = some (a + 1, tnew) := by
    intro st email a told tnew h
    simp [record_login_attempt, h]
  have base : ∀ (st : LoginAttempts) (email : String) (tnew : ℤ),
      st email = none →
      record_login_attempt st email false tnew email = some (1, tnew) := by
    intro st email tnew h
    simp [record_login_attempt, h]
  refine ⟨fun st email now => ?_, fun st email now => ?_, ?_⟩
  · cases h : st email with
    | none => simp [check_rate_limit, h]
    | some p =>
        obtain ⟨a, t⟩ := p
        simp only [check_rate_limit, h]
        constructor
        · intro hres
          by_cases h1 : now - t < 900
          · by_cases h2 : 5 ≤ a
            · exact ⟨a, t, rfl, h2, h1⟩
            · simp [h1, h2] at hres
          · simp [h1] at hres
        · rintro ⟨a1, t1, heq, h5, hw⟩
          injection heq with heq1
          injection heq1 with ha ht
          subst ha ht
          simp [hw, h5]
  · simp [record_login_attempt]
  · intro st0 email t1 t2 t3 t4 t5 now h0 hnow
    have h1 := base st0 email t1 h0
    have h2 := step _ email 1 t1 t2 h1
    have h3 := step _ email 2 t2 t3 h2
    have h4 := step _ email 3 t3 t4 h3
    have h5 := step _ email 4 t4 t5 h4
    simp [check_rate_limit, h5, hnow]

/-- C3 witness: from an empty map, five failures at instants 0..4 block a
sixth attempt at instant 10; a success then empties the entry. -/
theorem rate_limit_blocks_iff_witness :
    check_rate_limit
      (record_login_attempt
        (record_login_attempt
          (record_login_attempt
            (record_login_attempt
              (record_login_attempt (fun _ => none) "ana" false 0) "ana" false 1)
            "ana" false 2)
          "ana" false 3)
        "ana" false 4)
      "ana" 10 = false ∧
    record_login_attempt (fun _ => none) "ana" true 10 "ana" = none :=
  ⟨rate_limit_blocks_iff.2.2 (fun _ => none) "ana" 0 1 2 3 4 10 rfl (by norm_num),
   rate_limit_blocks_iff.2.1 (fun _ => none) "ana" 10⟩

/-- C4: a failed login always increments the stored count from its last
value and refreshes the timestamp, with no staleness reset; so failing 4
times, waiting out the 15-minute window, and failing once more yields
count 5 with a fresh timestamp, which blocks the following attempt. -/
theorem rate_limit_counter_no_stale_reset :
    (∀ (st : LoginAttempts) (email : String) (now t0 : ℤ) (a : ℕ),
      st email = some (a, t0) →
      record_login_attempt st email false now email = some (a + 1, now)) ∧
    (∀ (st0 : LoginAttempts) (email : String) (t1 t2 t3 t4 t5 t6 : ℤ),
      st0 email = none → 900 < t5 - t4 → t6 - t5 < 900 →
      (record_login_attempt
          (record_login_attempt
            (record_login_attempt
              (record_login_attempt
                (record_login_attempt st0 email false t1) email false t2)
              email false t3)
            email false t4)
          email false t5) email = some (5, t5) ∧
      check_rate_limit
        (record_login_attempt
          (record_login_attempt
            (record_login_attempt
              (record_login_attempt
                (record_login_attempt st0 email false t1) email false t2)
              email false t3)
            email false t4)
          email false t5)
        email t6 = false) := by
  have step : ∀ (st : LoginAttempts) (email : String) (a : ℕ) (told tnew : ℤ),
      st email = some (a, told) →
      record_login_attempt st email false tnew email = some (a + 1, tnew) := by
    intro st email a told tnew h
    simp [record_login_attempt, h]
  refine ⟨fun st email now t0 a h => step st email a t0 now h, ?_⟩
  intro st0 email t1 t2 t3 t4 t5 t6 h0 _hstale hwin
  have h1 : record_login_attempt st0 email false t1 email = some (1, t1) := by
    simp [record_login_attempt, h0]
  have h2 := step _ email 1 t1 t2 h1
  have h3 := step _ email 2 t2 t3 h2
  have h4 := step _ email 3 t3 t4 h3
  have h5 := step _ email 4 t4 t5 h4
  exact ⟨h5, by simp [check_rate_limit, h5, hwin]⟩

/-- C4 witness: the increment at a concrete prior entry, and the
4-failures / long wait / fifth-failure scenario at concrete instants 0,
1, 2, 3, 1000, 1500. -/
theorem rate_limit_counter_no_stale_reset_witness :
    record_login_attempt (fun _ => some (1, 0)) "bob" false 5 "bob" = some (2, 5) ∧
    check_rate_limit
      (record_login_attempt
        (record_login_attempt
          (record_login_attempt
            (record_login_attempt
              (record_login_attempt (fun _ => none) "bob" false 0) "bob" false 1)
            "bob" false 2)
          "bob" false 3)
        "bob" false 1000)
      "bob" 1500 = false :=
  ⟨rate_limit_counter_no_stale_reset.1 (fun _ => some (1, 0)) "bob" 5 0 1 rfl,
   (rate_limit_counter_no_stale_reset.2 (fun _ => none) "bob" 0 1 2 3 1000 1500 rfl
      (by norm_num) (by norm_num)).2⟩

/-- Erasing the first match from a list holding at most one match leaves
no match at all. -/
theorem countP_eraseP_eq_zero {α : Type} (p : α → Bool) (l : List α)
    (h : l.countP p ≤ 1) : (l.eraseP p).countP p = 0 := by
  induction l with
  | nil => simp
  | cons a l ih =>
      by_cases ha : p a
      · rw [List.eraseP_cons_of_pos ha]
        rw [List.countP_cons, if_pos ha] at h
        omega
      · rw [List.eraseP_cons_of_neg ha, List.countP_cons, if_neg ha]
        rw [List.countP_cons, if_neg ha] at h
        simpa using ih (by omega)

/-- C2: a refresh token is single-use.  On a successful refresh the old
persisted record is deleted and a record for the (fresh) new token is
inserted, so no record matching the old token remains, and presenting
the same token again fails with 401 because no matching persisted record
exists.  The count hypothesis is the store invariant that a token string
occurs in at most one record (every minted token carries a fresh `jti`
uuid), and `hfresh` is freshness of the newly minted token. -/
theorem refresh_token_single_use (db : AuthDB) (tok sub na nr na2 nr2 : String)
    (huniq : (db.refresh_tokens.countP fun r => r.token == tok) ≤ 1)
    (hfresh : nr ≠ tok)
    (hfound : (findOneToken db.refresh_tokens tok sub).isSome)
    (huser : (findUser db.users sub).isSome) :
    (refreshEndpoint db tok (JwtDecode.ok "refresh" sub) na nr).1 =
        RefreshOutcome.success na nr sub ∧
    RefreshRec.mk nr sub ∈
        (refreshEndpoint db tok (JwtDecode.ok "refresh" sub) na nr).2.refresh_tokens ∧
    ((refreshEndpoint db tok (JwtDecode.ok "refresh" sub) na nr).2.refresh_tokens.countP
        fun r => r.token == tok) = 0 ∧
    (refreshEndpoint (refreshEndpoint db tok (JwtDecode.ok "refresh" sub) na nr).2 tok
        (JwtDecode.ok "refresh" sub) na2 nr2).1 =
      RefreshOutcome.failure 401 "Token inválido ou revogado" := by
  obtain ⟨r0, hr0⟩ := Option.isSome_iff_exists.mp hfound
  obtain ⟨u0, hu0⟩ := Option.isSome_iff_exists.mp huser
  have hres : refreshEndpoint db tok (JwtDecode.ok "refresh" sub) na nr =
      (RefreshOutcome.success na nr sub,
        { refresh_tokens := deleteOneToken db.refresh_tokens tok ++ [RefreshRec.mk nr sub],
          users := db.users }) := by
    simp [refreshEndpoint, hr0, hu0]
  have hcnt : ((deleteOneToken db.refresh_tokens tok ++ [RefreshRec.mk nr sub]).countP
      fun r => r.token == tok) = 0 := by
    rw [List.countP_append, deleteOneToken, countP_eraseP_eq_zero _ _ huniq]
    simp [hfresh]
  have hnone : findOneToken
      (deleteOneToken db.refresh_tokens tok ++ [RefreshRec.mk nr sub]) tok sub = none := by
    rw [findOneToken, List.find?_eq_none]
    intro x hx
    have hx0 := (List.countP_eq_zero.mp hcnt) x hx
    simp only [Bool.and_eq_true]
    rintro ⟨h1, _⟩
    exact hx0 h1
  refine ⟨by rw [hres], by rw [hres]; simp, by rw [hres]; exact hcnt, ?_⟩
  rw [hres]
  simp [refreshEndpoint, hnone]

/-- C2 witness: a store holding one record for token tok1 of user u1;
the first refresh succeeds and the second fails with 401. -/
theorem refresh_token_single_use_witness :
    (refreshEndpoint (AuthDB.mk [RefreshRec.mk "tok1" "u1"] [UserRec.mk "u1"])
        "tok1" (JwtDecode.ok "refresh" "u1") "acc2" "ref2").1 =
      RefreshOutcome.success "acc2" "ref2" "u1" ∧
    (refreshEndpoint
        (refreshEndpoint (AuthDB.mk [RefreshRec.mk "tok1" "u1"] [UserRec.mk "u1"])
          "tok1" (JwtDecode.ok "refresh" "u1") "acc2" "ref2").2
        "tok1" (JwtDecode.ok "refresh" "u1") "acc3" "ref3").1 =
      RefreshOutcome.failure 401 "Token inválido ou revogado" := by
  have h := refresh_token_single_use
    (AuthDB.mk [RefreshRec.mk "tok1" "u1"] [UserRec.mk "u1"])
    "tok1" "u1" "acc2" "ref2" "acc3" "ref3"
    (by decide) (by decide) (by decide) (by decide)
  exact ⟨h.1, h.2.2.2⟩

/-- C9: when the presented token decodes as a refresh token and has a
matching persisted record but the user it names no longer exists, the
endpoint answers 401 with the record already deleted: the token is
consumed although no new pair is issued (nothing is inserted). -/
theorem refresh_consumes_token_on_missing_user (db : AuthDB) (tok sub na nr : String)
    (huniq : (db.refresh_tokens.countP fun r => r.token == tok) ≤ 1)
    (hfound : (findOneToken db.refresh_tokens tok sub).isSome)
    (huser : findUser db.users sub = none) :
    (refreshEndpoint db tok (JwtDecode.ok "refresh" sub) na nr).1 =
        RefreshOutcome.failure 401 "Usuário não encontrado" ∧
    (refreshEndpoint db tok (JwtDecode.ok "refresh" sub) na nr).2.refresh_tokens =
        deleteOneToken db.refresh_tokens tok ∧
    ((refreshEndpoint db tok (JwtDecode.ok "refresh" sub) na nr).2.refresh_tokens.countP
        fun r => r.token == tok) = 0 ∧
    (refreshEndpoint db tok (JwtDecode.ok "refresh" sub) na nr).2.refresh_tokens.length + 1 =
        db.refresh_tokens.length := by
  obtain ⟨r0, hr0⟩ := Option.isSome_iff_exists.mp hfound
  have hres : refreshEndpoint db tok (JwtDecode.ok "refresh" sub) na nr =
      (RefreshOutcome.failure 401 "Usuário não encontrado",
        { refresh_tokens := deleteOneToken db.refresh_tokens tok, users := db.users }) := by
    simp [refreshEndpoint, hr0, huser]
  have hr0f : List.find? (fun rr => rr.token == tok && rr.user_id == sub)
      db.refresh_tokens = some r0 := hr0
  have hmem : r0 ∈ db.refresh_tokens := List.mem_of_find?_eq_some hr0f
  have hp : (r0.token == tok) = true := by
    have hh := List.find?_some hr0f
    simp only [Bool.and_eq_true] at hh
    exact hh.1
  have hlen : (db.refresh_tokens.eraseP fun r => r.token == tok).length =
      db.refresh_tokens.length - 1 :=
    List.length_eraseP_of_mem hmem hp
  have hpos : 0 < db.refresh_tokens.length := List.length_pos_of_mem hmem
  refine ⟨by rw [hres], by rw [hres], ?_, ?_⟩
  · rw [hres]
    exact countP_eraseP_eq_zero _ _ huniq
  · rw [hres]
    simp only [deleteOneToken]
    omega

/-- C9 witness: one persisted record for token tok1 of u1 and no user
document; the refresh fails with 401 and the record is gone. -/
theorem refresh_consumes_token_on_missing_user_witness :
    (refreshEndpoint (AuthDB.mk [RefreshRec.mk "tok1" "u1"] [])
        "tok1" (JwtDecode.ok "refresh" "u1") "acc2" "ref2").1 =
      RefreshOutcome.failure 401 "Usuário não encontrado" ∧
    (refreshEndpoint (AuthDB.mk [RefreshRec.mk "tok1" "u1"] [])
        "tok1" (JwtDecode.ok "refresh" "u1") "acc2" "ref2").2.refresh_tokens.length + 1 = 1 := by
  have h := refresh_consumes_token_on_missing_user
    (AuthDB.mk [RefreshRec.mk "tok1" "u1"] []) "tok1" "u1" "acc2" "ref2"
    (by decide) (by decide) (by decide)
  exact ⟨h.1, h.2.2.2⟩

/-- C10: deleting a category with a reassignment target succeeds when the
category exists, some non-deleted transaction references it (the
precondition count filters on `deleted_at = None`), and the target
exists; the update then rewrites the `category_id` of every transaction
of the user referencing the category — soft-deleted ones included, since
the update filter has no `deleted_at` clause — leaving every other field
and every other transaction untouched, and removes the category. -/
theorem delete_category_reassigns_soft_deleted (db : FinDB) (user cid r : String)
    (hcat : (db.categories.find? fun c => c.id == cid && c.user_id == user).isSome)
    (hcount : 0 < db.transactions.countP fun t =>
        t.category_id == cid && t.user_id == user && decide (t.deleted_at = none))
    (hre : (db.categories.find? fun c => c.id == r && c.user_id == user).isSome) :
    (delete_category db user cid (some r)).1 =
        DeleteCatResult.ok "Categoria deletada com sucesso" ∧
    (delete_category db user cid (some r)).2.transactions =
        db.transactions.map
          (fun t => if reassignGuard cid user t then { t with category_id := r } else t) ∧
    (∀ t ∈ db.transactions, t.category_id = cid → t.user_id = user →
        { t with category_id := r } ∈ (delete_category db user cid (some r)).2.transactions) ∧
    (∀ t ∈ db.transactions, ¬(t.category_id = cid ∧ t.user_id = user) →
        t ∈ (delete_category db user cid (some r)).2.transactions) ∧
    (delete_category db user cid (some r)).2.categories =
        db.categories.eraseP fun c => c.id == cid := by
  obtain ⟨c0, hc0⟩ := Option.isSome_iff_exists.mp hcat
  obtain ⟨cr, hcr⟩ := Option.isSome_iff_exists.mp hre
  have hres : delete_category db user cid (some r) =
      (DeleteCatResult.ok "Categoria deletada com sucesso",
        { categories := db.categories.eraseP fun c => c.id == cid,
          transactions := db.transactions.map
            fun t => if reassignGuard cid user t then { t with category_id := r } else t }) := by
    simp [delete_category, hc0, hcr, hcount]
  refine ⟨by rw [hres], by rw [hres], ?_, ?_, by rw [hres]⟩
  · intro t ht h1 h2
    rw [hres]
    refine List.mem_map.mpr ⟨t, ht, ?_⟩
    have hg : reassignGuard cid user t = true := by
      simp [reassignGuard, h1, h2]
    rw [if_pos hg]
  · intro t ht h12
    rw [hres]
    refine List.mem_map.mpr ⟨t, ht, ?_⟩
    have hg : reassignGuard cid user t = false := by
      simp only [reassignGuard, Bool.and_eq_true, beq_iff_eq]
      rcases not_and_or.mp h12 with h | h
      · simp [h]
      · simp [h]
    rw [if_neg (by simp [hg])]

/-- Rounding an integer is the identity. -/
theorem roundHalfEven_intCast (n : ℤ) : roundHalfEven (n : ℚ) = n := by
  unfold roundHalfEven
  rw [Int.floor_intCast]
  norm_num

/-- `round2` is idempotent: a value already rounded to 2 decimal places
is left unchanged. -/
theorem round2_idem (x : ℚ) : round2 (round2 x) = round2 x := by
  unfold round2
  rw [div_mul_cancel₀ _ (by norm_num : (100 : ℚ) ≠ 0), roundHalfEven_intCast]

/-- Whatever the category lookup yields, the aggregate keeps the raw
category id and the raw full-precision sum. -/
theorem mkCatAgg_fields (cats : List Cat) (p : String × ℚ) :
    (mkCatAgg cats p).category_id = p.1 ∧ (mkCatAgg cats p).amount = p.2 := by
  unfold mkCatAgg
  cases cats.find? fun c => c.id == p.1 <;> simp

/-- A stored expense of one third, whose per-category and per-day sums
are not representable in 2 decimal places (concrete fixture). -/
def txThird : Tx :=
  { id := "t3", user_id := "u1", type := TxType.expense, description := "rateio",
    amount := 1 / 3, date := 0, category_id := "c1", deleted_at := none }

/-- C6 counterexample: in the monthly report for a single expense of 1/3,
the top-category amount and the daily_balance expense are emitted as the
raw value 1/3, which is not rounded to 2 decimal places
(`round2 (1/3) = 33/100 ≠ 1/3`): the response rounds only the top-level
figures, not the nested lists. -/
theorem monthly_report_unrounded_counterexample :
    ((monthlyReport 1 2024 [txThird] [] []).top_expense_categories.map fun e => e.amount) =
      [1 / 3] ∧
    ((monthlyReport 1 2024 [txThird] [] []).daily_balance.map fun d => d.expense) =
      [1 / 3] ∧
    round2 (1 / 3 : ℚ) ≠ (1 / 3 : ℚ) := by
  refine ⟨?_, ?_, ?_⟩
  · simp [monthlyReport, groupExpenseByCategory, upsertCat, mkCatAgg, txThird]
  · simp [monthlyReport, dailyGroup, upsertDay, dayOf, txThird]
  · unfold round2
    intro h
    rw [div_eq_div_iff (by norm_num) (by norm_num)] at h
    have h3 : ((roundHalfEven ((1 : ℚ) / 3 * 100) * 3 : ℤ) : ℚ) = ((100 : ℤ) : ℚ) := by
      push_cast
      linarith
    have h4 : (roundHalfEven ((1 : ℚ) / 3 * 100)) * 3 = 100 := Int.cast_injective h3
    omega

/-- C6 (amended): the top-level monetary figures of the monthly report —
total_income, total_expense, balance and the two change percentages —
are rounded to 2 decimal places at the response boundary, with internal
summation at full precision; but the amount of each top expense category
and the income, expense and balance of each daily_balance entry are
emitted at full internal precision, without boundary rounding. -/
theorem monthly_report_boundary_rounding (m y : ℤ) (txs ptxs : List Tx)
    (cats : List Cat) :
    IsRounded2 (monthlyReport m y txs ptxs cats).total_income ∧
    IsRounded2 (monthlyReport m y txs ptxs cats).total_expense ∧
    IsRounded2 (monthlyReport m y txs ptxs cats).balance ∧
    (∀ x, (monthlyReport m y txs ptxs cats).income_change = some x → IsRounded2 x) ∧
    (∀ x, (monthlyReport m y txs ptxs cats).expense_change = some x → IsRounded2 x) ∧
    (∀ e ∈ (monthlyReport m y txs ptxs cats).top_expense_categories,
      ∃ p ∈ groupExpenseByCategory txs, e.category_id = p.1 ∧ e.amount = p.2) ∧
    (∀ d ∈ (monthlyReport m y txs ptxs cats).daily_balance,
      ∃ q ∈ dailyGroup txs,
        d.day = q.1 ∧ d.income = q.2.1 ∧ d.expense = q.2.2 ∧ d.balance = q.2.1 - q.2.2) := by
  refine ⟨round2_idem _, round2_idem _, round2_idem _, ?_, ?_, ?_, ?_⟩
  · intro x hx
    simp only [monthlyReport, Option.map_eq_some'] at hx
    obtain ⟨a, _, ha⟩ := hx
    rw [← ha]
    exact round2_idem a
  · intro x hx
    simp only [monthlyReport, Option.map_eq_some'] at hx
    obtain ⟨a, _, ha⟩ := hx
    rw [← ha]
    exact round2_idem a
  · intro e he
    simp only [monthlyReport] at he
    have h1 := List.take_subset 5 _ he
    have h2 := List.mem_mergeSort.mp h1
    obtain ⟨p, hp, hpe⟩ := List.mem_map.mp h2
    exact ⟨p, hp, by rw [← hpe]; exact (mkCatAgg_fields cats p).1,
      by rw [← hpe]; exact (mkCatAgg_fields cats p).2⟩
  · intro d hd
    simp only [monthlyReport] at hd
    obtain ⟨q, hq, hqd⟩ := List.mem_map.mp hd
    have hq2 := List.mem_mergeSort.mp hq
    exact ⟨q, hq2, by rw [← hqd], by rw [← hqd], by rw [← hqd], by rw [← hqd]⟩

/-- C6 witness: the rounded headline total and the full-precision nested
amount on the concrete one-expense report. -/
theorem monthly_report_boundary_rounding_witness :
    IsRounded2 (monthlyReport 1 2024 [txThird] [] []).total_income ∧
    (∃ p ∈ groupExpenseByCategory [txThird],
      (CatAgg.mk "c1" "Desconhecida" "#71717a" (1 / 3)).category_id = p.1 ∧
      (CatAgg.mk "c1" "Desconhecida" "#71717a" (1 / 3)).amount = p.2) :=
  ⟨(monthly_report_boundary_rounding 1 2024 [txThird] [] []).1,
   (monthly_report_boundary_rounding 1 2024 [txThird] [] []).2.2.2.2.2.1
      (CatAgg.mk "c1" "Desconhecida" "#71717a" (1 / 3))
      (by simp [monthlyReport, groupExpenseByCategory, upsertCat, mkCatAgg, txThird])⟩

/-- A category fixture owned by u1. -/
def catFood : Cat := { id := "c1", user_id := "u1", name := "Alimentação", color := "#ef4444" }

/-- A second category fixture owned by u1, the reassignment target. -/
def catOther : Cat := { id := "c2", user_id := "u1", name := "Outros", color := "#71717a" }

/-- An active transaction referencing c1 (concrete fixture). -/
def txActive : Tx :=
  { id := "t1", user_id := "u1", type := TxType.expense, description := "padaria",
    amount := 10, date := 0, category_id := "c1", deleted_at := none }

/-- A soft-deleted transaction referencing c1 (concrete fixture). -/
def txSoftDeleted : Tx :=
  { id := "t2", user_id := "u1", type := TxType.expense, description := "antiga",
    amount := 5, date := 0, category_id := "c1", deleted_at := some 99 }

/-- A store with two categories, one active and one soft-deleted
transaction on c1 (concrete fixture). -/
def dbFix : FinDB :=
  { categories := [catFood, catOther], transactions := [txActive, txSoftDeleted] }

/-- C10 witness: deleting c1 with reassignment to c2 succeeds and moves
the soft-deleted transaction to c2 as well. -/
theorem delete_category_reassigns_soft_deleted_witness :
    (delete_category dbFix "u1" "c1" (some "c2")).1 =
      DeleteCatResult.ok "Categoria deletada com sucesso" ∧
    { txSoftDeleted with category_id := "c2" } ∈
      (delete_category dbFix "u1" "c1" (some "c2")).2.transactions := by
  have h := delete_category_reassigns_soft_deleted dbFix "u1" "c1" "c2"
    (by decide) (by decide) (by decide)
  exact ⟨h.1,
    h.2.2.1 txSoftDeleted
      (List.mem_cons_of_mem txActive (List.mem_cons_self txSoftDeleted [])) rfl rfl⟩

/-- Normalisation is the identity on an already-valid month index. -/
theorem normMY_of_pos {m : ℤ} (h : 0 < m) (y : ℤ) : normMY m y = (m, y) := by
  rw [normMY]
  rw [if_neg (by omega)]

/-- One step of the `while m <= 0` loop. -/
theorem normMY_step {m : ℤ} (h : m ≤ 0) (y : ℤ) : normMY m y = normMY (m + 12) (y - 1) := by
  rw [normMY]
  rw [if_pos h]

/-- Successor month below the December wrap. -/
theorem nextMonthPair_lt (m y : ℤ) (h : m ≠ 12) : nextMonthPair (m, y) = (m + 1, y) := by
  unfold nextMonthPair
  rw [if_neg h]

/-- Successor month at the December wrap. -/
theorem nextMonthPair_12 (y : ℤ) : nextMonthPair (12, y) = (1, y + 1) := by
  unfold nextMonthPair
  rw [if_pos rfl]

/-- C8: the dashboard's monthly_comparison over the all-time non-deleted
transaction set has exactly 6 entries; the j-th entry (0-based) is the
month labelled `comparisonLabel j`, these labels are consecutive
calendar months (oldest first) and the last one is the current month; and
each entry carries the month-name abbreviation, the year, and that
month's income and expense totals computed over the all-time list
filtered by the month's boundaries (`monthEntry`). -/
theorem monthly_comparison_six_months (nowY nowM : ℤ) (h1 : 1 ≤ nowM) (h2 : nowM ≤ 12)
    (store : List Tx) :
    (monthlyComparison nowY nowM (allTransactions store)).length = 6 ∧
    comparisonLabel nowY nowM 5 = (nowM, nowY) ∧
    (∀ j : ℕ, j < 5 →
      nextMonthPair (comparisonLabel nowY nowM j) = comparisonLabel nowY nowM (j + 1)) ∧
    (∀ j : ℕ, j < 6 →
      (monthlyComparison nowY nowM (allTransactions store)).getD j default =
        monthEntry (allTransactions store) (comparisonLabel nowY nowM j)) := by
  refine ⟨by simp [monthlyComparison], ?_, ?_, ?_⟩
  · unfold comparisonLabel
    norm_num
    exact normMY_of_pos (by omega) nowY
  · intro j hj
    have hc : (5 : ℤ) - ((j + 1 : ℕ) : ℤ) = 5 - (j : ℤ) - 1 := by push_cast; ring
    unfold comparisonLabel
    rw [hc]
    have hjz : (j : ℤ) ≤ 4 := by exact_mod_cast Nat.le_of_lt_succ hj
    have hjz0 : (0 : ℤ) ≤ (j : ℤ) := Int.ofNat_nonneg j
    set a : ℤ := nowM - (5 - (j : ℤ)) with ha
    have hrw : nowM - (5 - (j : ℤ) - 1) = a + 1 := by omega
    rw [hrw]
    have hlb : -4 ≤ a := by omega
    have hub : a ≤ 11 := by omega
    by_cases h0 : 0 < a
    · rw [normMY_of_pos h0, normMY_of_pos (by omega : (0 : ℤ) < a + 1),
        nextMonthPair_lt _ _ (by omega)]
    · by_cases hA : a = 0
      · rw [hA, normMY_step (by omega)]
        rw [show (0 : ℤ) + 12 = 12 by norm_num, show (0 : ℤ) + 1 = 1 by norm_num]
        rw [normMY_of_pos (by omega : (0 : ℤ) < 12), normMY_of_pos (by omega : (0 : ℤ) < 1),
          nextMonthPair_12]
        rw [show nowY - 1 + 1 = nowY by ring]
      · have hA1 : a + 1 ≤ 0 := by omega
        rw [normMY_step (by omega), normMY_of_pos (by omega : (0 : ℤ) < a + 12),
          nextMonthPair_lt _ _ (by omega),
          normMY_step hA1, normMY_of_pos (by omega : (0 : ℤ) < a + 1 + 12)]
        rw [show a + 12 + 1 = a + 1 + 12 by ring]
  · intro j hj
    interval_cases j <;>
      simp only [monthlyComparison, comparisonLabel, List.map_cons, List.map_nil,
        List.getD_cons_zero, List.getD_cons_succ] <;>
      norm_num

/-- C8 witness: six entries for March 2024 over an empty store. -/
theorem monthly_comparison_six_months_witness :
    (monthlyComparison 2024 3 (allTransactions [])).length = 6 ∧
    comparisonLabel 2024 3 5 = (3, 2024) :=
  ⟨(monthly_comparison_six_months 2024 3 (by norm_num) (by norm_num) []).1,
   (monthly_comparison_six_months 2024 3 (by norm_num) (by norm_num) []).2.1⟩

end Financa
